import Mathlib

/-!
Verification of the NactiveHealth backend authorization and audit pipeline.

The definitions below are a shallow embedding of `src/auth.ts`,
`src/validation.ts`, `src/types.ts` and the route wiring in the second part
of `src/README.md` (the Express application).  JavaScript runtime behaviour
that the code relies on (truthiness, `parseInt`, `JSON.parse` throwing on
malformed strings) is modelled explicitly and documented at each definition.
-/

/-- The three static roles of `src/types.ts` (`UserRole`). -/
inductive UserRole
  | doctor
  | nurse
  | admin
deriving DecidableEq, Repr

/-- The identity claim attached to a request by `authenticateToken`
(`req.user` in `src/auth.ts`, shape `{id, username, role}`). -/
structure UserIdent where
  id : Int
  username : String
  role : UserRole
deriving DecidableEq, Repr

/-- Outcome of an Express middleware: either `next()` was called with the
given identity attached to the request (`next`), or the middleware wrote a
response with the given status and error message and the downstream handler
never executes (`halt`). -/
inductive MwOutcome
  | next (user : Option UserIdent)
  | halt (status : Nat) (error : String)
deriving DecidableEq, Repr

/-- Embedding of `authenticateToken` (src/auth.ts lines 18-32).  The
`verify` parameter models the external `jwt.verify` library call: `.ok u`
when the callback receives a decoded user, `.error ()` when it receives an
error.  `cookie` is `req.cookies.token`; `none` models an absent cookie.
JavaScript tests `if (!token)`, so the empty string is falsy and takes the
401 branch exactly like an absent cookie. -/
def authenticateToken (verify : String → Except Unit UserIdent)
    (cookie : Option String) : MwOutcome :=
  match cookie with
  | none => .halt 401 "Access token required"
  | some t =>
      if t = "" then .halt 401 "Access token required"
      else
        match verify t with
        | .error _ => .halt 403 "Invalid token"
        | .ok u => .next (some u)

/-- Embedding of `requireRole` (src/auth.ts lines 34-41): the guard built
from the allowed-role list, applied to the identity currently attached to
the request (`req.user`, `none` when no identity is attached).  The source
tests `if (!req.user || !roles.includes(req.user.role))`. -/
def requireRole (roles : List UserRole) (user : Option UserIdent) : MwOutcome :=
  match user with
  | none => .halt 403 "Insufficient permissions"
  | some u =>
      if roles.contains u.role then .next (some u)
      else .halt 403 "Insufficient permissions"

/-- A verifier under which every token string fails verification.  This is
the behaviour of `jwt.verify` for any deployment at inputs that are not
well-formed signed tokens; in particular the empty string is never a valid
JWT, so any faithful verifier agrees with this one at `""`. -/
def rejectAllVerify : String → Except Unit UserIdent :=
  fun _ => Except.error ()

/-- A verifier that accepts exactly the token `"tok-dr"` and decodes it to
the doctor identity below; models `jwt.verify` for one issued token. -/
def demoUser : UserIdent :=
  { id := 1, username := "dr_smith", role := UserRole.doctor }

def demoVerify : String → Except Unit UserIdent :=
  fun t => if t = "tok-dr" then Except.ok demoUser else Except.error ()

/-- Model of JavaScript `parseInt(s)` (radix-10 inputs): skip leading
whitespace, read an optional sign, then the longest leading run of decimal
digits; the result is `none` for `NaN` (no digits found).  Hexadecimal
`0x`-prefixed forms of `parseInt` are not modelled; no input considered in
this development uses them. -/
def jsParseInt (s : String) : Option Int :=
  let cs := s.toList.dropWhile (fun c => c = ' ' ∨ c = '\t' ∨ c = '\n' ∨ c = '\r')
  let signAndRest : Int × List Char :=
    match cs with
    | '-' :: rest => (-1, rest)
    | '+' :: rest => (1, rest)
    | _ => (1, cs)
  let ds := signAndRest.2.takeWhile Char.isDigit
  if ds.isEmpty then none
  else some (signAndRest.1 *
    (ds.foldl (fun acc c => acc * 10 + (c.toNat - '0'.toNat)) 0 : Nat))

/-- A JavaScript value of the shapes the `entityId` expression in
`auditLog` can take: a number, `NaN` (from `parseInt` on a non-numeric
string), or `undefined` (no path id and no `id` field in the body). -/
inductive JsNum
  | num (n : Int)
  | nan
  | undef
deriving DecidableEq, Repr

/-- The body half of the `entityId` expression: `parsedData?.id` is the
numeric `id` field when present, else `undefined`. -/
def bodyEntityId : Option Int → JsNum
  | some n => JsNum.num n
  | none => JsNum.undef

/-- Embedding of the expression
`req.params.id ? parseInt(req.params.id) : parsedData?.id`
(src/auth.ts line 51).  `paramsId` is `req.params.id` (`none` when the
route has no `:id` parameter); JavaScript truthiness makes the empty string
fall through to the body branch like an absent parameter. -/
def deriveEntityId (paramsId : Option String) (bodyId : Option Int) : JsNum :=
  match paramsId with
  | none => bodyEntityId bodyId
  | some s =>
      if s = "" then bodyEntityId bodyId
      else
        match jsParseInt s with
        | some n => JsNum.num n
        | none => JsNum.nan

/-- Embedding of `entityId || null` (src/auth.ts line 58): the falsy
values `0`, `NaN` and `undefined` are coerced to `null` (`none`). -/
def jsOrNull : JsNum → Option Int
  | JsNum.num n => if n = 0 then none else some n
  | JsNum.nan => none
  | JsNum.undef => none

/-- The value a handler passes to `res.send`.  `res.json` serializes its
argument and sends a string, which `JSON.parse` in the audit wrapper
re-parses; the wrapper only ever reads the optional numeric `id` field of
the parsed value, so a body is modelled by whether it is (a) a string that
parses to a value with that optional `id` field, (b) a string on which
`JSON.parse` throws, or (c) a non-string value with that optional `id`
field (no parse is attempted: `typeof data === 'string' ? JSON.parse(data)
: data`). -/
inductive SendData
  | strOk (idField : Option Int)
  | strBad
  | objVal (idField : Option Int)
deriving DecidableEq, Repr

/-- The parse step of the audit wrapper (src/auth.ts line 50):
`typeof data === 'string' ? JSON.parse(data) : data`, with `.error ()`
modelling a thrown exception caught by the surrounding `try`. -/
def parseOf : SendData → Except Unit (Option Int)
  | SendData.strOk idf => Except.ok idf
  | SendData.strBad => Except.error ()
  | SendData.objVal idf => Except.ok idf

/-- The row submitted to `prisma.auditLog.create` (src/auth.ts lines
53-59), matching `AuditLog` of `src/types.ts` minus the store-assigned id
and timestamp. -/
structure AuditRecord where
  user_role : UserRole
  action : String
  entity_type : String
  entity_id : Option Int
deriving DecidableEq, Repr

/-- Observable effects of the wrapped `res.send`: `attempts` is the list
of rows submitted to `prisma.auditLog.create` (fire-and-forget),
`persisted` the sublist that the store accepted (a rejected promise is
swallowed by `.catch`), and `sent` the list of arguments passed to the
original `res.send`, in order. -/
structure SendState where
  attempts : List AuditRecord
  persisted : List AuditRecord
  sent : List SendData
deriving DecidableEq, Repr

def SendState.init : SendState :=
  { attempts := [], persisted := [], sent := [] }

/-- Embedding of one invocation of the wrapped `res.send` installed by
`auditLog(action, entityType)` (src/auth.ts lines 46-67).  `user` is
`req.user`, `paramsId` is `req.params.id`, `statusCode` is
`res.statusCode` at send time, and `persistOk` models the outcome of the
detached `prisma.auditLog.create` promise (`false`: rejected and logged by
`.catch`).  The `try` block swallows a `JSON.parse` throw, and the
original send runs after the block in every case. -/
def wrappedSend (action entityType : String) (user : Option UserIdent)
    (paramsId : Option String) (persistOk : Bool)
    (statusCode : Nat) (data : SendData) (st : SendState) : SendState :=
  let st1 :=
    if 200 ≤ statusCode ∧ statusCode < 300 then
      match user with
      | some u =>
          match parseOf data with
          | Except.error _ => st
          | Except.ok idf =>
              let rec0 : AuditRecord :=
                { user_role := u.role, action := action,
                  entity_type := entityType,
                  entity_id := jsOrNull (deriveEntityId paramsId idf) }
              { st with attempts := st.attempts ++ [rec0],
                        persisted :=
                          st.persisted ++ (if persistOk then [rec0] else []) }
      | none => st
    else st
  { st1 with sent := st1.sent ++ [data] }

/-- The row `auditLog` submits for a given acting user, path id and parsed
body id. -/
def mkAuditRecord (a t : String) (u : UserIdent) (pid : Option String)
    (idf : Option Int) : AuditRecord :=
  { user_role := u.role, action := a, entity_type := t,
    entity_id := jsOrNull (deriveEntityId pid idf) }

/-- One Express route registration from the application wiring
(src/README.md, second part, the `app.get`/`app.post` calls): its method,
path pattern, whether `authenticateToken` is installed, the
`requireRole` list when installed, and the `auditLog(action, entityType)`
arguments when that middleware is installed. -/
structure Route where
  method : String
  path : String
  usesAuth : Bool
  allowedRoles : Option (List UserRole)
  audit : Option (String × String)
deriving DecidableEq, Repr

/-- The full route table of the application, transcribed registration by
registration from the wiring file. -/
def routes : List Route :=
  [ { method := "POST", path := "/api/auth/login", usesAuth := false,
      allowedRoles := none, audit := none },
    { method := "POST", path := "/api/auth/logout", usesAuth := false,
      allowedRoles := none, audit := none },
    { method := "GET", path := "/api/auth/me", usesAuth := true,
      allowedRoles := none, audit := none },
    { method := "POST", path := "/api/patients", usesAuth := true,
      allowedRoles := some [UserRole.doctor, UserRole.nurse, UserRole.admin],
      audit := some ("CREATE", "patient") },
    { method := "GET", path := "/api/patients", usesAuth := true,
      allowedRoles := some [UserRole.doctor, UserRole.nurse, UserRole.admin],
      audit := none },
    { method := "GET", path := "/api/patients/:id", usesAuth := true,
      allowedRoles := some [UserRole.doctor, UserRole.nurse, UserRole.admin],
      audit := some ("READ", "patient") },
    { method := "POST", path := "/api/encounters", usesAuth := true,
      allowedRoles := some [UserRole.doctor, UserRole.nurse],
      audit := some ("CREATE", "encounter") },
    { method := "POST", path := "/api/prescriptions", usesAuth := true,
      allowedRoles := some [UserRole.doctor],
      audit := some ("CREATE", "prescription") },
    { method := "GET", path := "/api/patients/:id/records", usesAuth := true,
      allowedRoles := some [UserRole.doctor, UserRole.nurse, UserRole.admin],
      audit := some ("READ", "patient_records") },
    { method := "GET", path := "/api/audit-logs", usesAuth := true,
      allowedRoles := some [UserRole.admin], audit := none },
    { method := "GET", path := "/api/health", usesAuth := false,
      allowedRoles := none, audit := none } ]

/-- The audit rows a single response write on the given route submits: a
route with `auditLog` installed routes the write through `wrappedSend`
with that action and entity type; a route without it has the original
`res.send` and no handler touches `prisma.auditLog.create`, so it submits
nothing. -/
def routeAuditTrace (r : Route) (user : UserIdent) (pid : Option String)
    (ok : Bool) (status : Nat) (d : SendData) : List AuditRecord :=
  match r.audit with
  | some (a, t) => (wrappedSend a t (some user) pid ok status d SendState.init).attempts
  | none => []

def patientsListRoute : Route :=
  { method := "GET", path := "/api/patients", usesAuth := true,
    allowedRoles := some [UserRole.doctor, UserRole.nurse, UserRole.admin],
    audit := none }

/-- Patient row (`Patient` in src/types.ts); `created_at` is modelled as
a natural-number timestamp, used only for ordering. -/
structure Patient where
  id : Int
  full_name : String
  date_of_birth : String
  gender : String
  phone : Option String
  created_at : Nat
deriving DecidableEq, Repr

/-- Whether `needle` occurs at the head of `hay`. -/
def leadsWith : List Nat → List Nat → Bool
  | [], _ => true
  | _ :: _, [] => false
  | a :: as, b :: bs => a == b && leadsWith as bs

/-- Whether `needle` occurs contiguously anywhere in `hay`: the string
`contains` operator of the store's query language, over code points. -/
def occursIn (needle : List Nat) : List Nat → Bool
  | [] => needle.isEmpty
  | b :: bs => leadsWith needle (b :: bs) || occursIn needle bs

/-- The code points of a string. -/
def strCodes (s : String) : List Nat :=
  s.toList.map Char.toNat

/-- ASCII case folding of one code point; the insensitive match mode is
modelled as folding both sides (ASCII range, which covers the data this
application handles). -/
def lowerCode (n : Nat) : Nat :=
  if 65 ≤ n ∧ n ≤ 90 then n + 32 else n

def containsStr (hay needle : String) : Bool :=
  occursIn (strCodes needle) (strCodes hay)

def containsCI (hay needle : String) : Bool :=
  occursIn ((strCodes needle).map lowerCode) ((strCodes hay).map lowerCode)

/-- The Prisma `where` filter of GET /api/patients (wiring file, the
`findMany` call): `full_name` contains the search string with
`mode: 'insensitive'`, OR `phone` contains it — the phone branch carries
no `mode: 'insensitive'`, so it is case-sensitive; a NULL phone matches
nothing. -/
def patientWhere (search : String) (p : Patient) : Bool :=
  containsCI p.full_name search ||
    (match p.phone with
     | some ph => containsStr ph search
     | none => false)

/-- Ordering realizing `orderBy: { created_at: 'desc' }`: `a` may come
before `b` when `a` is at least as new. -/
def newestFirst (a b : Patient) : Prop :=
  b.created_at ≤ a.created_at

instance : DecidableRel newestFirst :=
  fun a b => Nat.decLe b.created_at a.created_at

instance : IsTotal Patient newestFirst :=
  ⟨fun a b => Nat.le_total b.created_at a.created_at⟩

instance : IsTrans Patient newestFirst :=
  ⟨fun _ _ _ hab hbc => Nat.le_trans hbc hab⟩

/-- Embedding of the GET /api/patients handler query: apply the `where`
filter when a truthy `search` query parameter is given (absent and the
empty string are falsy), order newest first, take 50. -/
def getPatientsHandler (patients : List Patient) (search : Option String) :
    List Patient :=
  let filtered :=
    match search with
    | none => patients
    | some s => if s = "" then patients else patients.filter (patientWhere s)
  (List.insertionSort newestFirst filtered).take 50

/-- The matching predicate C8 states, written from the spec's words:
"optional `search` query matched case-insensitively against name/phone" —
both the name and the phone matched case-insensitively.  It exists only to
be compared with `patientWhere`, which is translated from the code. -/
def specPatientMatches (search : String) (p : Patient) : Bool :=
  containsCI p.full_name search ||
    (match p.phone with
     | some ph => containsCI ph search
     | none => false)

def phonePatient : Patient :=
  { id := 1, full_name := "Zed Qux", date_of_birth := "1990-01-01",
    gender := "other", phone := some "ABC", created_at := 0 }

/-- Encounter row (`Encounter` in src/types.ts). -/
structure Encounter where
  id : Int
  patient_id : Int
  clinician_role : String
  notes : Option String
deriving DecidableEq, Repr

/-- The slice of the record store the POST /api/encounters request
touches, plus the audit submission trail. -/
structure Store where
  patients : List Patient
  encounters : List Encounter
  auditAttempts : List AuditRecord
deriving DecidableEq, Repr

/-- Embedding of the POST /api/encounters handler body (wiring file): look
up the patient by `parseInt(patient_id)` — the body's `patient_id` is a
Joi-validated number, on which JavaScript `parseInt` is the identity for
integers, so it is taken as an `Int` directly; on a miss respond 404
`{error: 'Patient not found'}` (a JSON body with no `id` field) and insert
nothing; on a hit insert the encounter under the store-assigned `newId`
and respond 201 `{id, message}`.  `res.json` sends a serialized string,
which the audit wrapper re-parses. -/
def postEncounterHandler (patients : List Patient)
    (encounters : List Encounter) (newId : Int) (patient_id : Int)
    (clinician_role : String) (notes : Option String) :
    Nat × SendData × List Encounter :=
  match patients.find? (fun p => p.id == patient_id) with
  | none => (404, SendData.strOk none, encounters)
  | some _ =>
      (201, SendData.strOk (some newId),
        encounters ++ [{ id := newId, patient_id := patient_id,
                         clinician_role := clinician_role, notes := notes }])

/-- The full audited POST /api/encounters request past authentication,
role gate and validation: run the handler, route its single response
write through the audit wrapper installed by
`auditLog('CREATE', 'encounter')` (the route has no `:id` path
parameter), and collect the new store. -/
def encountersRequest (st : Store) (user : UserIdent) (ok : Bool)
    (newId : Int) (patient_id : Int) (clinician_role : String)
    (notes : Option String) : Nat × Store :=
  let r := postEncounterHandler st.patients st.encounters newId patient_id
    clinician_role notes
  let ss := wrappedSend "CREATE" "encounter" (some user) none ok r.1 r.2.1
    SendState.init
  (r.1,
    { st with
      encounters := r.2.2
      auditAttempts := st.auditAttempts ++ ss.attempts })

/-- C2: the role-gate guard calls the downstream handler iff an identity is
attached and its role is in the allowed list; in every other case,
including the no-identity case, it halts with 403 "Insufficient
permissions" (fails closed, never allows). -/
theorem C2_role_gate (roles : List UserRole) (user : Option UserIdent) :
    (requireRole roles user = .next user ↔
      ∃ u, user = some u ∧ roles.contains u.role = true) ∧
    (requireRole roles user = .next user ∨
      requireRole roles user = .halt 403 "Insufficient permissions") ∧
    requireRole roles none = .halt 403 "Insufficient permissions" := by
  refine ⟨?_, ?_, rfl⟩
  · constructor
    · intro h
      cases user with
      | none => simp [requireRole] at h
      | some u =>
          refine ⟨u, rfl, ?_⟩
          by_contra hc
          simp only [requireRole, if_neg hc] at h
          exact MwOutcome.noConfusion h
    · rintro ⟨u, rfl, hmem⟩
      simp only [requireRole, if_pos hmem]
  · cases user with
    | none => exact Or.inr rfl
    | some u =>
        by_cases hmem : roles.contains u.role = true
        · exact Or.inl (by simp only [requireRole, if_pos hmem])
        · exact Or.inr (by
            simp only [requireRole]
            rw [if_neg hmem])

/-- C3 counterexample: the claim says a present cookie that fails
verification yields 403, but the source tests `if (!token)` first, so the
present-but-empty cookie `""` (header `Cookie: token=`) yields 401, not
403, and `jwt.verify` is never consulted even though `""` fails
verification under every verifier. -/
theorem C3_counterexample :
    authenticateToken rejectAllVerify (some "") = .halt 401 "Access token required" ∧
    ¬ authenticateToken rejectAllVerify (some "") = .halt 403 "Invalid token" := by
  refine ⟨rfl, ?_⟩
  intro h
  simp [authenticateToken] at h

/-- C3 amended: if the token cookie is absent or empty the response is 401
and the downstream handler never executes; if the cookie is present and
nonempty but fails verification the response is 403 and the handler never
executes; if verification succeeds the decoded identity is attached and the
handler chain continues with it. -/
theorem C3_session_middleware (verify : String → Except Unit UserIdent)
    (cookie : Option String) :
    (cookie = none → authenticateToken verify cookie = .halt 401 "Access token required") ∧
    (cookie = some "" → authenticateToken verify cookie = .halt 401 "Access token required") ∧
    (∀ t, cookie = some t → t ≠ "" → verify t = .error () →
      authenticateToken verify cookie = .halt 403 "Invalid token") ∧
    (∀ t u, cookie = some t → t ≠ "" → verify t = .ok u →
      authenticateToken verify cookie = .next (some u)) := by
  refine ⟨?_, ?_, ?_, ?_⟩
  · rintro rfl; rfl
  · rintro rfl; rfl
  · rintro t rfl ht hv
    simp [authenticateToken, ht, hv]
  · rintro t u rfl ht hv
    simp [authenticateToken, ht, hv]

/-- C3 witness: at a concrete verifier and cookie, the amended theorem
yields that the valid token attaches the doctor identity. -/
theorem C3_session_middleware_witness :
    authenticateToken demoVerify (some "tok-dr") = .next (some demoUser) :=
  (C3_session_middleware demoVerify (some "tok-dr")).2.2.2 "tok-dr" demoUser rfl
    (by decide) (by rfl)

example : jsParseInt "0" = some 0 := by decide

example : jsParseInt "abc" = none := by decide

example : jsParseInt "42" = some 42 := by decide

example : jsParseInt "-7" = some (-7) := by decide

example : jsParseInt "12ab" = some 12 := by decide

example :
    (wrappedSend "READ" "patient" (some demoUser) (some "5") true 200
      (SendData.strOk none) SendState.init).attempts =
    [{ user_role := UserRole.doctor, action := "READ",
       entity_type := "patient", entity_id := some 5 }] := by decide

theorem wrappedSend_ok (a t : String) (u : UserIdent) (pid : Option String)
    (ok : Bool) (status : Nat) (d : SendData) (idf : Option Int)
    (st : SendState) (h1 : 200 ≤ status) (h2 : status < 300)
    (hd : parseOf d = Except.ok idf) :
    wrappedSend a t (some u) pid ok status d st =
      { attempts := st.attempts ++ [mkAuditRecord a t u pid idf],
        persisted := st.persisted ++ (if ok then [mkAuditRecord a t u pid idf] else []),
        sent := st.sent ++ [d] } := by
  unfold wrappedSend
  rw [if_pos ⟨h1, h2⟩, hd]
  rfl

theorem wrappedSend_skip (a t : String) (user : Option UserIdent)
    (pid : Option String) (ok : Bool) (status : Nat) (d : SendData)
    (st : SendState)
    (h : ¬ (200 ≤ status ∧ status < 300) ∨ user = none ∨
      parseOf d = Except.error ()) :
    wrappedSend a t user pid ok status d st =
      { st with sent := st.sent ++ [d] } := by
  unfold wrappedSend
  rcases h with h | h | h
  · rw [if_neg h]
  · subst h
    by_cases hs : 200 ≤ status ∧ status < 300
    · rw [if_pos hs]
    · rw [if_neg hs]
  · by_cases hs : 200 ≤ status ∧ status < 300
    · rw [if_pos hs, h]
      cases user <;> rfl
    · rw [if_neg hs]

/-- C7: a failure inside the audit-recording step — a `JSON.parse` throw
or a rejected audit-persistence promise — never changes what the caller
receives: the original `res.send` is invoked with the handler's unmodified
data in every case (the wrapper is total, so nothing raises to the
caller), and the `sent` trace is the same whether persistence succeeded or
failed. -/
theorem C7_audit_failure_frame (a t : String) (user : Option UserIdent)
    (pid : Option String) (ok : Bool) (status : Nat) (d : SendData)
    (st : SendState) :
    (wrappedSend a t user pid ok status d st).sent = st.sent ++ [d] ∧
    (wrappedSend a t user pid ok status d st).sent =
      (wrappedSend a t user pid true status d st).sent := by
  have hsent : ∀ b : Bool, (wrappedSend a t user pid b status d st).sent = st.sent ++ [d] := by
    intro b
    unfold wrappedSend
    by_cases hs : 200 ≤ status ∧ status < 300
    · rw [if_pos hs]
      cases user with
      | none => rfl
      | some u =>
          cases hd : parseOf d with
          | error e => rfl
          | ok idf => rfl
    · rw [if_neg hs]
  exact ⟨hsent ok, by rw [hsent ok, hsent true]⟩

/-- C4 counterexample: the claim says a record is persisted whenever the
status is in [200,300) and an identity is attached, but with status 200,
the doctor identity attached and a string body on which `JSON.parse`
throws (for example `res.send("hello")`), the thrown parse aborts the
`try` block before `prisma.auditLog.create`, so nothing is submitted or
persisted. -/
theorem C4_counterexample :
    (wrappedSend "READ" "patient" (some demoUser) none true 200
      SendData.strBad SendState.init).attempts = [] ∧
    (wrappedSend "READ" "patient" (some demoUser) none true 200
      SendData.strBad SendState.init).persisted = [] := by
  constructor <;> rfl

/-- C4 amended: an audit record is submitted for persistence iff the
response status is in [200,300), an identity is attached, and the
body-parse step does not throw; on an error status, or with no identity,
or on a parse throw, nothing is submitted and nothing is persisted. -/
theorem C4_audit_gating (a t : String) (user : Option UserIdent)
    (pid : Option String) (ok : Bool) (status : Nat) (d : SendData) :
    ((wrappedSend a t user pid ok status d SendState.init).attempts ≠ [] ↔
      (200 ≤ status ∧ status < 300) ∧ user.isSome = true ∧
        parseOf d ≠ Except.error ()) ∧
    (¬ (200 ≤ status ∧ status < 300) →
      (wrappedSend a t user pid ok status d SendState.init).attempts = [] ∧
      (wrappedSend a t user pid ok status d SendState.init).persisted = []) ∧
    (user = none →
      (wrappedSend a t user pid ok status d SendState.init).attempts = [] ∧
      (wrappedSend a t user pid ok status d SendState.init).persisted = []) := by
  refine ⟨?_, ?_, ?_⟩
  · constructor
    · intro h
      by_cases hs : 200 ≤ status ∧ status < 300
      · cases user with
        | none =>
            rw [wrappedSend_skip _ _ _ _ _ _ _ _ (Or.inr (Or.inl rfl))] at h
            exact absurd rfl h
        | some u =>
            cases hd : parseOf d with
            | error e =>
                rw [wrappedSend_skip _ _ _ _ _ _ _ _ (Or.inr (Or.inr hd))] at h
                exact absurd rfl h
            | ok idf => exact ⟨hs, rfl, fun hc => Except.noConfusion hc⟩
      · rw [wrappedSend_skip _ _ _ _ _ _ _ _ (Or.inl hs)] at h
        exact absurd rfl h
    · rintro ⟨hs, hu, hp⟩
      cases user with
      | none => exact absurd hu (by decide)
      | some u =>
          cases hd : parseOf d with
          | error e => exact absurd hd hp
          | ok idf =>
              rw [wrappedSend_ok _ _ _ _ _ _ _ idf _ hs.1 hs.2 hd]
              simp
  · intro hs
    rw [wrappedSend_skip _ _ _ _ _ _ _ _ (Or.inl hs)]
    exact ⟨rfl, rfl⟩
  · intro hu
    rw [wrappedSend_skip _ _ _ _ _ _ _ _ (Or.inr (Or.inl hu))]
    exact ⟨rfl, rfl⟩

/-- C4 witness: the amended theorem applied at a 404 response shows no
record is submitted there. -/
theorem C4_audit_gating_witness :
    (wrappedSend "CREATE" "encounter" (some demoUser) none true 404
      (SendData.strOk none) SendState.init).attempts = [] :=
  ((C4_audit_gating "CREATE" "encounter" (some demoUser) none true 404
    (SendData.strOk none)).2.1 (by decide)).1

/-- C5 counterexample: the claim says the persisted record's `entity_id`
is the integer path identifier when the path has an `:id` parameter, but
for the path parameter `"0"` (which `parseInt` reads as the integer 0) the
`entityId || null` coercion stores `null` instead of 0, even though the
response body also carries `id: 7` that the claimed order would ignore. -/
theorem C5_counterexample :
    jsParseInt "0" = some 0 ∧
    (wrappedSend "READ" "patient" (some demoUser) (some "0") true 200
      (SendData.strOk (some 7)) SendState.init).attempts =
    [{ user_role := UserRole.doctor, action := "READ",
       entity_type := "patient", entity_id := none }] := by
  constructor <;> rfl

/-- C5 amended: for every successful audited send, exactly one record is
submitted carrying the acting role, the declared action and entity type,
and `entity_id` derived in the claimed order — integer path id first, then
the body's `id` field, then null — except that a falsy derived value
(integer 0, a non-numeric path id, an `id` field equal to 0) is coerced to
null by `entityId || null`. -/
theorem C5_entity_id_derivation (a t : String) (u : UserIdent)
    (pid : Option String) (ok : Bool) (status : Nat) (idf : Option Int)
    (h1 : 200 ≤ status) (h2 : status < 300) :
    (∀ s n, pid = some s → s ≠ "" → jsParseInt s = some n → n ≠ 0 →
      (wrappedSend a t (some u) pid ok status (SendData.strOk idf)
        SendState.init).attempts =
      [{ user_role := u.role, action := a, entity_type := t,
         entity_id := some n }]) ∧
    (∀ s, pid = some s → s ≠ "" →
      (jsParseInt s = some 0 ∨ jsParseInt s = none) →
      (wrappedSend a t (some u) pid ok status (SendData.strOk idf)
        SendState.init).attempts =
      [{ user_role := u.role, action := a, entity_type := t,
         entity_id := none }]) ∧
    (∀ m, pid = none → idf = some m → m ≠ 0 →
      (wrappedSend a t (some u) pid ok status (SendData.strOk idf)
        SendState.init).attempts =
      [{ user_role := u.role, action := a, entity_type := t,
         entity_id := some m }]) ∧
    (pid = none → (idf = none ∨ idf = some 0) →
      (wrappedSend a t (some u) pid ok status (SendData.strOk idf)
        SendState.init).attempts =
      [{ user_role := u.role, action := a, entity_type := t,
         entity_id := none }]) := by
  have hbase : ∀ pid0,
      (wrappedSend a t (some u) pid0 ok status (SendData.strOk idf)
        SendState.init).attempts = [mkAuditRecord a t u pid0 idf] := by
    intro pid0
    rw [wrappedSend_ok a t u pid0 ok status (SendData.strOk idf) idf
      SendState.init h1 h2 rfl]
    rfl
  refine ⟨?_, ?_, ?_, ?_⟩
  · rintro s n rfl hs hparse hn
    rw [hbase (some s)]
    simp [mkAuditRecord, deriveEntityId, if_neg hs, hparse, jsOrNull,
      if_neg hn]
  · rintro s rfl hs hparse
    rw [hbase (some s)]
    rcases hparse with hparse | hparse <;>
      simp [mkAuditRecord, deriveEntityId, if_neg hs, hparse, jsOrNull]
  · rintro m rfl rfl hm
    rw [hbase none]
    simp [mkAuditRecord, deriveEntityId, bodyEntityId, jsOrNull, if_neg hm]
  · rintro rfl hidf
    rcases hidf with rfl | rfl <;>
      · rw [hbase none]
        simp [mkAuditRecord, deriveEntityId, bodyEntityId, jsOrNull]

/-- C5 witness: the amended theorem at path id "5" records entity_id 5
with the doctor role. -/
theorem C5_entity_id_derivation_witness :
    (wrappedSend "READ" "patient" (some demoUser) (some "5") true 200
      (SendData.strOk none) SendState.init).attempts =
    [{ user_role := UserRole.doctor, action := "READ",
       entity_type := "patient", entity_id := some 5 }] :=
  (C5_entity_id_derivation "READ" "patient" demoUser (some "5") true 200 none
    (by decide) (by decide)).1 "5" 5 rfl (by decide) (by decide) (by decide)

/-- C6 counterexample: the wrapper installs no once-only guard, so a
handler that writes to the response twice with a success status triggers
the audit-recording step twice — two rows are submitted for one request,
refuting "exactly once per successful request regardless of how many times
the handler writes". -/
theorem C6_counterexample :
    (wrappedSend "CREATE" "patient" (some demoUser) none true 200
      (SendData.strOk (some 5))
      (wrappedSend "CREATE" "patient" (some demoUser) none true 200
        (SendData.strOk (some 5)) SendState.init)).attempts.length = 2 ∧
    ¬ (wrappedSend "CREATE" "patient" (some demoUser) none true 200
      (SendData.strOk (some 5))
      (wrappedSend "CREATE" "patient" (some demoUser) none true 200
        (SendData.strOk (some 5)) SendState.init)).attempts.length = 1 := by
  constructor
  · rfl
  · decide

/-- C6 amended: the audit-recording step executes exactly once per
successful send invocation — each call of the wrapped send with a success
status, an attached identity and a parseable body appends exactly one
record to the submission trace.  Every handler in this repository writes
to the response exactly once on a given path, so there it coincides with
once per request; the wrapper itself guards per write, not per request. -/
theorem C6_once_per_send (a t : String) (u : UserIdent) (pid : Option String)
    (ok : Bool) (status : Nat) (d : SendData) (st : SendState)
    (h1 : 200 ≤ status) (h2 : status < 300)
    (h3 : parseOf d ≠ Except.error ()) :
    (wrappedSend a t (some u) pid ok status d st).attempts.length =
      st.attempts.length + 1 := by
  cases hd : parseOf d with
  | error e => exact absurd (by rw [hd]) h3
  | ok idf =>
      rw [wrappedSend_ok a t u pid ok status d idf st h1 h2 hd]
      simp

/-- C6 witness: one successful send submits exactly one record. -/
theorem C6_once_per_send_witness :
    (wrappedSend "CREATE" "patient" (some demoUser) none true 201
      (SendData.strOk (some 5)) SendState.init).attempts.length =
      SendState.init.attempts.length + 1 :=
  C6_once_per_send "CREATE" "patient" demoUser none true 201
    (SendData.strOk (some 5)) SendState.init (by decide) (by decide)
    (fun hc => Except.noConfusion hc)

/-- C10: whenever the derived entity identifier is falsy — the path `:id`
parameter parses to 0 or `NaN`, or the body's `id` field is 0 or absent —
the recorded `entity_id` is null, and consequently no record submitted by
the wrapper ever carries `entity_id` equal to 0. -/
theorem C10_falsy_entity_id :
    (∀ s idf, s ≠ "" → (jsParseInt s = some 0 ∨ jsParseInt s = none) →
      jsOrNull (deriveEntityId (some s) idf) = none) ∧
    (∀ pid idf, (pid = none ∨ pid = some "") →
      (idf = none ∨ idf = some 0) →
      jsOrNull (deriveEntityId pid idf) = none) ∧
    (∀ a t user pid ok status d rec,
      rec ∈ (wrappedSend a t user pid ok status d SendState.init).attempts →
      ¬ rec.entity_id = some 0) := by
  refine ⟨?_, ?_, ?_⟩
  · intro s idf hs hparse
    rcases hparse with hparse | hparse <;>
      simp [deriveEntityId, if_neg hs, hparse, jsOrNull]
  · rintro pid idf (rfl | rfl) (rfl | rfl) <;> rfl
  · intro a t user pid ok status d rec hmem
    by_cases hs : 200 ≤ status ∧ status < 300
    · cases user with
      | none =>
          rw [wrappedSend_skip _ _ _ _ _ _ _ _ (Or.inr (Or.inl rfl))] at hmem
          exact absurd hmem (by simp [SendState.init])
      | some u =>
          cases hd : parseOf d with
          | error e =>
              rw [wrappedSend_skip _ _ _ _ _ _ _ _ (Or.inr (Or.inr hd))] at hmem
              exact absurd hmem (by simp [SendState.init])
          | ok idf =>
              rw [wrappedSend_ok _ _ _ _ _ _ _ idf _ hs.1 hs.2 hd] at hmem
              simp only [SendState.init, List.nil_append,
                List.mem_singleton] at hmem
              subst hmem
              simp only [mkAuditRecord]
              cases hde : deriveEntityId pid idf with
              | num n =>
                  by_cases hn : n = 0
                  · simp [jsOrNull, hn]
                  · simp [jsOrNull, if_neg hn]
                    intro hc
                    exact hn hc
              | nan => simp [jsOrNull]
              | undef => simp [jsOrNull]
    · rw [wrappedSend_skip _ _ _ _ _ _ _ _ (Or.inl hs)] at hmem
      exact absurd hmem (by simp [SendState.init])

/-- C10 witness: the theorem at path id "0" with body id 7 gives a null
entity_id. -/
theorem C10_falsy_entity_id_witness :
    jsOrNull (deriveEntityId (some "0") (some 7)) = none :=
  C10_falsy_entity_id.1 "0" (some 7) (by decide) (Or.inl (by decide))

/-- C1 counterexample: the claim covers the protected list endpoint
`GET /api/patients`, but its registration installs no `auditLog`
middleware, so a successful authorized request on it produces zero audit
rows, not exactly one (the same holds for `GET /api/audit-logs`). -/
theorem C1_counterexample :
    patientsListRoute ∈ routes ∧
    routeAuditTrace patientsListRoute demoUser none true 200
      (SendData.strOk none) = [] ∧
    ¬ (routeAuditTrace patientsListRoute demoUser none true 200
      (SendData.strOk none)).length = 1 := by
  refine ⟨by decide, rfl, by decide⟩

/-- C1 amended: every route wired with the audit middleware (POST
/api/patients, GET /api/patients/:id, POST /api/encounters, POST
/api/prescriptions, GET /api/patients/:id/records) submits exactly one
audit row per successful response write with an attached identity and a
parseable body, and that row's user_role is the acting identity's role;
the protected list endpoints GET /api/patients and GET /api/audit-logs,
which are wired without it, submit none. -/
theorem C1_audited_routes :
    (∀ r ∈ routes, ∀ a t, r.audit = some (a, t) →
      ∀ (u : UserIdent) (pid : Option String) (ok : Bool) (status : Nat)
        (d : SendData) (idf : Option Int),
        200 ≤ status → status < 300 → parseOf d = Except.ok idf →
        routeAuditTrace r u pid ok status d = [mkAuditRecord a t u pid idf] ∧
        (mkAuditRecord a t u pid idf).user_role = u.role) ∧
    (∀ r ∈ routes, r.audit = none →
      ∀ (u : UserIdent) (pid : Option String) (ok : Bool) (status : Nat)
        (d : SendData),
        routeAuditTrace r u pid ok status d = []) := by
  constructor
  · intro r _ a t ha u pid ok status d idf h1 h2 hd
    refine ⟨?_, rfl⟩
    simp only [routeAuditTrace, ha]
    rw [wrappedSend_ok a t u pid ok status d idf SendState.init h1 h2 hd]
    rfl
  · intro r _ ha u pid ok status d
    simp only [routeAuditTrace, ha]

/-- C1 witness: the POST /api/patients route at a successful 201 response
submits exactly the one row for the acting doctor. -/
theorem C1_audited_routes_witness :
    routeAuditTrace
      { method := "POST", path := "/api/patients", usesAuth := true,
        allowedRoles := some [UserRole.doctor, UserRole.nurse, UserRole.admin],
        audit := some ("CREATE", "patient") }
      demoUser none true 201 (SendData.strOk (some 9)) =
      [mkAuditRecord "CREATE" "patient" demoUser none (some 9)] :=
  ((C1_audited_routes.1 _ (by decide) "CREATE" "patient" rfl demoUser none
    true 201 (SendData.strOk (some 9)) (some 9) (by decide) (by decide)
    rfl)).1

example : containsStr "ABC" "abc" = false := by decide

example : containsCI "ABC" "abc" = true := by decide

example : containsCI "Jane Doe" "ane" = true := by decide

/-- C8 counterexample: the claim says phone is matched case-insensitively,
but the phone branch of the query has no insensitive mode: a patient whose
phone contains "ABC" is a match under the claim's reading for the search
"abc", yet the handler returns no rows. -/
theorem C8_counterexample :
    specPatientMatches "abc" phonePatient = true ∧
    getPatientsHandler [phonePatient] (some "abc") = [] := by
  constructor <;> decide

/-- C8 amended: for an authorized GET /api/patients request with a
nonempty `search` query, every returned row matches the query's filter —
full_name matched case-insensitively OR phone matched case-sensitively —
and when at most 50 rows match, every matching patient is returned; for
every request (with or without `search`) at most 50 rows are returned,
ordered newest first by creation time. -/
theorem C8_patients_query (patients : List Patient) (s : String)
    (hs : s ≠ "") :
    (∀ p ∈ getPatientsHandler patients (some s), patientWhere s p = true) ∧
    (∀ q : Option String, (getPatientsHandler patients q).length ≤ 50) ∧
    (∀ q : Option String, (getPatientsHandler patients q).Pairwise
      (fun a b => b.created_at ≤ a.created_at)) ∧
    ((patients.filter (patientWhere s)).length ≤ 50 →
      ∀ p ∈ patients, patientWhere s p = true →
        p ∈ getPatientsHandler patients (some s)) := by
  have hfil : getPatientsHandler patients (some s) =
      (List.insertionSort newestFirst (patients.filter (patientWhere s))).take 50 := by
    simp only [getPatientsHandler, if_neg hs]
  refine ⟨?_, ?_, ?_, ?_⟩
  · intro p hp
    rw [hfil] at hp
    have h1 : p ∈ List.insertionSort newestFirst (patients.filter (patientWhere s)) :=
      (List.take_sublist _ _).subset hp
    have h2 : p ∈ patients.filter (patientWhere s) :=
      (List.perm_insertionSort _ _).mem_iff.1 h1
    exact (List.mem_filter.1 h2).2
  · intro q
    simp only [getPatientsHandler]
    exact List.length_take_le _ _
  · intro q
    simp only [getPatientsHandler]
    exact List.Pairwise.sublist (List.take_sublist _ _)
      (List.sorted_insertionSort newestFirst _)
  · intro hlen p hp hpw
    have hmem : p ∈ patients.filter (patientWhere s) :=
      List.mem_filter.2 ⟨hp, hpw⟩
    have hperm := List.perm_insertionSort newestFirst (patients.filter (patientWhere s))
    have hlen2 :
        (List.insertionSort newestFirst (patients.filter (patientWhere s))).length ≤ 50 := by
      rw [hperm.length_eq]
      exact hlen
    rw [hfil, List.take_of_length_le hlen2]
    exact hperm.mem_iff.2 hmem

/-- C8 witness: for the search "BC" the stored patient with phone "ABC"
matches the filter and is returned. -/
theorem C8_patients_query_witness :
    phonePatient ∈ getPatientsHandler [phonePatient] (some "BC") :=
  (C8_patients_query [phonePatient] "BC" (by decide)).2.2.2 (by decide)
    phonePatient (by decide) (by decide)

/-- C9: an authorized, schema-valid POST /api/encounters whose patient_id
references no existing patient responds 404, inserts no Encounter row and
submits no audit entry — the store comes back unchanged. -/
theorem C9_encounter_missing_patient (st : Store) (u : UserIdent)
    (ok : Bool) (newId patient_id : Int) (clinician_role : String)
    (notes : Option String)
    (h : st.patients.find? (fun p => p.id == patient_id) = none) :
    (encountersRequest st u ok newId patient_id clinician_role notes).1 = 404 ∧
    (encountersRequest st u ok newId patient_id clinician_role notes).2 = st := by
  have hh : postEncounterHandler st.patients st.encounters newId patient_id
      clinician_role notes = (404, SendData.strOk none, st.encounters) := by
    simp only [postEncounterHandler, h]
  have hskip : wrappedSend "CREATE" "encounter" (some u) none ok 404
      (SendData.strOk none) SendState.init =
      { SendState.init with sent := SendState.init.sent ++ [SendData.strOk none] } :=
    wrappedSend_skip _ _ _ _ _ _ _ _ (Or.inl (by decide))
  constructor
  · simp only [encountersRequest, hh]
  · simp only [encountersRequest, hh, hskip]
    simp only [SendState.init, List.append_nil]

/-- C9 witness: on a store with no patients, creating an encounter for
patient 5 gives 404 and the unchanged empty store. -/
theorem C9_encounter_missing_patient_witness :
    (encountersRequest { patients := [], encounters := [], auditAttempts := [] }
      demoUser true 1 5 "doctor" none).1 = 404 ∧
    (encountersRequest { patients := [], encounters := [], auditAttempts := [] }
      demoUser true 1 5 "doctor" none).2 =
      { patients := [], encounters := [], auditAttempts := [] } :=
  C9_encounter_missing_patient
    { patients := [], encounters := [], auditAttempts := [] }
    demoUser true 1 5 "doctor" none rfl
